import Mathlib

/-!
Verification of the city-hall spiders (scraper/spiders/cityhall.py):
BidsSpider, ContractsSpider, PaymentsSpider, COVID19ExpensesSpider.
Python string/date primitives are embedded first, then each spider's
parsing logic, then the theorems about the claims.
-/

deriving instance DecidableEq for Except

namespace CityHall

/-! ### Python string primitives

All string operations are implemented by structural recursion over the
character list, so that every definition evaluates by kernel reduction. -/

/-- Python `str.strip()` on a character list. -/
def stripChars (l : List Char) : List Char :=
  ((l.dropWhile Char.isWhitespace).reverse.dropWhile Char.isWhitespace).reverse

/-- Python `str.strip()` (leading/trailing whitespace removal). -/
def pyStrip (s : String) : String := String.mk (stripChars s.data)

/-- Splitting on a nonempty separator, fuelled by the input length (the fuel
never runs out when it starts at the input length). -/
def splitGo (sep : List Char) : Nat → List Char → List Char → List (List Char)
  | _, acc, [] => [acc.reverse]
  | 0, acc, l => [acc.reverse ++ l]
  | fuel + 1, acc, c :: rest =>
    if sep.isPrefixOf (c :: rest) then
      acc.reverse :: splitGo sep fuel [] ((c :: rest).drop sep.length)
    else splitGo sep fuel (c :: acc) rest

/-- Python `s.split(sep)` for a nonempty separator: non-overlapping,
left-to-right, keeping empty segments. -/
def pySplitOn (s sep : String) : List String :=
  (splitGo sep.data s.data.length [] s.data).map String.mk

/-- Replacement of a nonempty pattern, fuelled by the input length. -/
def replaceGo (pat rep : List Char) : Nat → List Char → List Char
  | _, [] => []
  | 0, l => l
  | fuel + 1, c :: rest =>
    if pat.isPrefixOf (c :: rest) then
      rep ++ replaceGo pat rep fuel ((c :: rest).drop pat.length)
    else c :: replaceGo pat rep fuel rest

/-- Python `s.replace(pat, rep)` for a nonempty pattern. -/
def pyReplace (s pat rep : String) : String :=
  String.mk (replaceGo pat.data rep.data s.data.length s.data)

/-- Python `int(s)` on an optionally signed decimal string with surrounding
whitespace; `none` models a raised `ValueError`. -/
def pyInt (s : String) : Option Int :=
  let t := (pyStrip s).data
  let core := match t with
    | '-' :: rest => (true, rest)
    | '+' :: rest => (false, rest)
    | l => (false, l)
  match core with
  | (neg, ds) =>
    if ds ≠ [] ∧ ds.all Char.isDigit then
      let n : Nat := ds.foldl (fun a c => a * 10 + (c.toNat - 48)) 0
      some (if neg then -(n : Int) else (n : Int))
    else none

/-- Lowercasing of the characters that occur in the portal's text
(ASCII plus the accented uppercase letters used there), as `str.lower()`. -/
def pyLowerChar (c : Char) : Char :=
  if 'A' ≤ c ∧ c ≤ 'Z' then Char.ofNat (c.toNat + 32)
  else if c = 'Á' then 'á' else if c = 'À' then 'à'
  else if c = 'Â' then 'â' else if c = 'Ã' then 'ã'
  else if c = 'É' then 'é' else if c = 'Ê' then 'ê'
  else if c = 'Í' then 'í' else if c = 'Ó' then 'ó'
  else if c = 'Ô' then 'ô' else if c = 'Õ' then 'õ'
  else if c = 'Ú' then 'ú' else if c = 'Ç' then 'ç'
  else c

/-- Uppercasing (inverse direction of `pyLowerChar`), as `str.upper()`. -/
def pyUpperChar (c : Char) : Char :=
  if 'a' ≤ c ∧ c ≤ 'z' then Char.ofNat (c.toNat - 32)
  else if c = 'á' then 'Á' else if c = 'à' then 'À'
  else if c = 'â' then 'Â' else if c = 'ã' then 'Ã'
  else if c = 'é' then 'É' else if c = 'ê' then 'Ê'
  else if c = 'í' then 'Í' else if c = 'ó' then 'Ó'
  else if c = 'ô' then 'Ô' else if c = 'õ' then 'Õ'
  else if c = 'ú' then 'Ú' else if c = 'ç' then 'Ç'
  else c

def pyLower (s : String) : String := String.mk (s.data.map pyLowerChar)

def pyUpper (s : String) : String := String.mk (s.data.map pyUpperChar)

/-- Python `str.capitalize()`: first character uppercased, the rest lowercased. -/
def pyCapitalize (s : String) : String :=
  match s.data with
  | [] => ""
  | c :: rest => String.mk (pyUpperChar c :: rest.map pyLowerChar)

/-- Modelled from the spec: `scraper.spiders.utils.strip_accents` is not under
src; per the spec, matching is "accent-stripped".  Maps each accented letter of
the portal's alphabet to its base letter. -/
def stripAccentChar (c : Char) : Char :=
  if c = 'á' ∨ c = 'à' ∨ c = 'â' ∨ c = 'ã' ∨ c = 'ä' then 'a'
  else if c = 'é' ∨ c = 'è' ∨ c = 'ê' then 'e'
  else if c = 'í' ∨ c = 'ì' ∨ c = 'î' then 'i'
  else if c = 'ó' ∨ c = 'ò' ∨ c = 'ô' ∨ c = 'õ' then 'o'
  else if c = 'ú' ∨ c = 'ù' ∨ c = 'û' ∨ c = 'ü' then 'u'
  else if c = 'ç' then 'c'
  else c

/-- Modelled from the spec: accent stripping over a whole string. -/
def strip_accents (s : String) : String := String.mk (s.data.map stripAccentChar)

/-- Substring test on character lists (Python `pat in hay`). -/
def sublistB (pat : List Char) : List Char → Bool
  | [] => pat.isEmpty
  | c :: t => pat.isPrefixOf (c :: t) || sublistB pat t

/-- Python `pat in s` substring containment. -/
def pyIn (pat s : String) : Bool := sublistB pat.data s.data

/-! ### Python dates -/

/-- A `datetime.date` value. -/
structure PyDate where
  year : Int
  month : Int
  day : Int
deriving DecidableEq

def isLeap (y : Int) : Bool :=
  y % 4 = 0 && (y % 100 ≠ 0 || y % 400 = 0)

def daysInMonth (y m : Int) : Int :=
  if m = 2 then (if isLeap y then 29 else 28)
  else if m = 4 ∨ m = 6 ∨ m = 9 ∨ m = 11 then 30
  else 31

/-- `datetime.date(y, m, d)`: validates ranges, raising `ValueError` otherwise. -/
def mkPyDate (y m d : Int) : Except String PyDate :=
  if 1 ≤ y ∧ y ≤ 9999 ∧ 1 ≤ m ∧ m ≤ 12 ∧ 1 ≤ d ∧ d ≤ daysInMonth y m then
    .ok ⟨y, m, d⟩
  else .error "ValueError"

/-- Python date comparison `a <= b` (lexicographic on year, month, day). -/
def pyDateLe (a b : PyDate) : Bool :=
  decide (a.year < b.year) ||
    (decide (a.year = b.year) &&
      (decide (a.month < b.month) ||
        (decide (a.month = b.month) && decide (a.day ≤ b.day))))

/-- Modelled from the spec: `datasets.parsers.from_str_to_datetime` is not
under src; per the spec, date parsing "accepts the portal's native textual
date format and produces a timestamp; unparsable dates fail the record".
The portal's native format is `dd/mm/yyyy`; `none` models an unparsable date. -/
def from_str_to_datetime (s : String) : Option PyDate :=
  match pySplitOn s "/" with
  | [d, m, y] =>
    match pyInt d, pyInt m, pyInt y with
    | some di, some mi, some yi =>
      match mkPyDate yi mi di with
      | .ok dt => some dt
      | .error _ => none
    | _, _, _ => none
  | _ => none

/-! ### Pagination walker

`ContractsSpider.parse`, `PaymentsSpider.parse` and
`COVID19ExpensesSpider.parse` share this logic:
`pages = response.css("div.pagination li a ::text").extract()`;
`if pages:`; `last_page = int(pages[-2])`;
`for page in range(1, last_page + 1): yield FormRequest(...)`. -/

/-- Python `range(1, n + 1)` as a list. -/
def rangeFromOne (n : Int) : List Int :=
  (List.range n.toNat).map (fun i => (i : Int) + 1)

/-- The page indices a query response expands to.  `pages` is the text of the
pagination control's entries; `.error` models a raised exception
(`pages[-2]` is `IndexError` on a singleton, `int(...)` is `ValueError` on a
non-integer entry).  Within the length guard `pages.getD (pages.length - 2) ""`
is exactly `pages[-2]`. -/
def paginationWalker (pages : List String) : Except String (List Int) :=
  if pages.isEmpty then .ok []
  else if 2 ≤ pages.length then
    match pyInt (pages.getD (pages.length - 2) "") with
    | some last_page => .ok (rangeFromOne last_page)
    | none => .error "ValueError"
  else .error "IndexError"

/-! ### Date-window crawl controller

`ContractsSpider.start_requests` and `PaymentsSpider.start_requests`:
`while start_date < today: ... yield FormRequest(...); start_date =
start_date + timedelta(days=1)`.  Dates are embedded as proleptic day
ordinals (`Nat`), so `timedelta(days=1)` is `+ 1` and date comparison is
ordinal comparison. -/

/-- The `while start_date < today` loop, fuelled by the span length so that
it is structurally recursive (the fuel never runs out when it starts at
`today - start`). -/
def windowLoop : Nat → Nat → Nat → List Nat
  | 0, _, _ => []
  | fuel + 1, s, t => if s < t then s :: windowLoop fuel (s + 1) t else []

def dateWindowStarts (start today : Nat) : List Nat :=
  windowLoop (today - start) start today

/-- Each queried day `d`, viewed as the half-open window `[d, d+1)`. -/
def crawlWindows (start today : Nat) : List (Nat × Nat) :=
  (dateWindowStarts start today).map (fun d => (d, d + 1))

/-! ### Link-date gate (`BidsSpider.follow_this_date`) -/

/-- Parameter lookup within one `k=v` query component list. -/
def lookupQuery (name : String) : List String → Option String
  | [] => none
  | p :: rest =>
    match pySplitOn p "=" with
    | k :: v :: vs =>
      if k = name then some (String.intercalate "=" (v :: vs))
      else lookupQuery name rest
    | _ => lookupQuery name rest

/-- Modelled from the spec: `scraper.spiders.utils.extract_param` is not under
src; per the spec the gate "extracts an embedded month/year token from the
URL".  Modelled as a standard query-parameter lookup: the part of the URL
after the first `?` and before the fragment (`#`), split on `&`, first
`name=value` component.  `none` models an absent parameter. -/
def extract_param (url name : String) : Option String :=
  let noFrag := (pySplitOn url "#").headD ""
  match pySplitOn noFrag "?" with
  | _ :: q :: qs => lookupQuery name (pySplitOn (String.intercalate "?" (q :: qs)) "&")
  | _ => none

/-- `BidsSpider.follow_this_date`: extract the `dt` parameter, split on `-`,
build `date(int(year), int(month), 1)` and compare with `start_date`.
`.error` models a raised exception (`AttributeError` if the parameter is
absent, `IndexError`/`ValueError` if the token is malformed). -/
def follow_this_date (start_date : PyDate) (url : String) : Except String Bool :=
  match extract_param url "dt" with
  | none => .error "AttributeError"
  | some token =>
    match pySplitOn token "-" with
    | m :: y :: _ =>
      match pyInt y, pyInt m with
      | some yi, some mi =>
        (mkPyDate yi mi 1).map (fun d => pyDateLe start_date d)
      | _, _ => .error "ValueError"
    | _ => .error "IndexError"

/-- The month/year the gate would read off a URL, when well-formed:
`some (month, year)` exactly when every step of `follow_this_date`'s parsing
(parameter extraction, split, `int`, `date`) succeeds. -/
def gateMonthYear (url : String) : Option (Int × Int) :=
  (extract_param url "dt").bind fun token =>
    match pySplitOn token "-" with
    | m :: y :: _ =>
      match pyInt y, pyInt m with
      | some yi, some mi =>
        match mkPyDate yi mi 1 with
        | .ok _ => some (mi, yi)
        | .error _ => none
      | _, _ => none
    | _ => none

/-! ### Modality classifier (`BidsSpider.get_modality`) -/

/-- `BidsSpider.get_modality`: `None` input propagates; otherwise the text is
lowercased and accent-stripped and matched against the ordered keyword table,
first match wins; no match returns `None` (unknown). -/
def get_modality : Option String → Option String
  | none => none
  | some modality_text =>
    let t := strip_accents (pyLower modality_text)
    if pyIn "tomada" (pyLower t) then some "tomada_de_precos"
    else if pyIn "pregao presencial" (pyLower t) then some "pregao_presencial"
    else if pyIn "pregao eletronico" (pyLower t) then some "pregao_eletronico"
    else if pyIn "leilao" (pyLower t) then some "leilao"
    else if pyIn "inexigibilidade" (pyLower t) then some "inexigibilidade"
    else if pyIn "dispensa" (pyLower t) then some "dispensada"
    else if pyIn "convite" (pyLower t) then some "convite"
    else if pyIn "concurso" (pyLower t) then some "concurso"
    else if pyIn "concorrencia" (pyLower t) then some "concorrencia"
    else if pyIn "chamada" (pyLower t) then some "chamada_publica"
    else if pyIn "chamamento" (pyLower t) then some "chamada_publica"
    else none

/-! ### Label-mode field extractor (`PaymentsSpider.parse_page` and
`COVID19ExpensesSpider.parse_page`)

The `mapping` dictionary and the `while details_copy:` loop that pops a
label and a value off the front of the flat token list and assigns
`item[mapping[key]] = value`. -/

/-- The static label → field-name lookup table (`mapping`). -/
def payMapping (k : String) : Option String :=
  if k = "N°:" then some "number"
  else if k = "CPF/CNPJ:" then some "document"
  else if k = "Data:" then some "date"
  else if k = "N° do processo:" then some "process_number"
  else if k = "Bem / Serviço Prestado:" then some "summary"
  else if k = "Natureza:" then some "group"
  else if k = "Ação:" then some "action"
  else if k = "Função:" then some "function"
  else if k = "Subfunção:" then some "subfunction"
  else if k = "Processo Licitatório:" then some "type_of_process"
  else if k = "Fonte de Recurso:" then some "resource"
  else none

/-- The label-keyed part of a payment item, as a partial map from field
name to value (the item's dict-like dynamic fields). -/
def Extras : Type := String → Option String

def emptyExtras : Extras := fun _ => none

/-- `item[f] = v`. -/
def setExtra (ex : Extras) (f v : String) : Extras :=
  fun q => if q = f then some v else ex q

/-- The `while details_copy:` loop: pop a label, pop a value
(`IndexError` when the value pop hits an empty list, i.e. odd length),
look the label up (`KeyError` when absent from the table) and assign. -/
def applyDetails : List String → Extras → Except String Extras
  | [], ex => .ok ex
  | [_], _ => .error "IndexError"
  | k :: v :: rest, ex =>
    match payMapping k with
    | some f => applyDetails rest (setExtra ex f v)
    | none => .error "KeyError"

/-- A (label, value) pair list flattened back to the alternating token list
the page carries. -/
def flattenPairs : List (String × String) → List String
  | [] => []
  | (k, v) :: rest => k :: v :: flattenPairs rest

/-- One (label, value) assignment step over an error-carrying accumulator;
`applyDetails` on a flattened pair list is a left fold of this step. -/
def detailStep (acc : Except String Extras) (p : String × String) :
    Except String Extras :=
  match acc with
  | .error e => .error e
  | .ok ex =>
    match payMapping p.1 with
    | some f => .ok (setExtra ex f p.2)
    | none => .error "KeyError"

/-! ### Payments and covid-expenses items -/

/-- `CityHallPaymentsItem`: four positional headline fields, provenance, and
the label-keyed dynamic fields. -/
structure PaymentItem where
  published_at : String
  phase : String
  company_or_person : String
  value : String
  crawled_at : Nat
  crawled_from : String
  extra : Extras

/-- One accordion row: the headline cell texts and the detail cell texts. -/
structure PayRow where
  headline : List String
  details : List String

/-- The body of the `for headline, raw_details in zip(...)` loop shared by
`PaymentsSpider.parse_page` and `COVID19ExpensesSpider.parse_page` (identical
code in the source, except for the `crawled_from` argument): strip headline
texts, index positions 0–3 (`IndexError` when fewer), strip the detail texts
and run the label/value loop. -/
def parsePaymentRow (now : Nat) (crawledFrom : String) (r : PayRow) :
    Except String PaymentItem :=
  match r.headline.map pyStrip with
  | h0 :: h1 :: h2 :: h3 :: _ =>
    (applyDetails (r.details.map pyStrip) emptyExtras).map
      (fun ex =>
        { published_at := h0, phase := h1, company_or_person := h2,
          value := h3, crawled_at := now, crawled_from := crawledFrom,
          extra := ex })
  | _ => .error "IndexError"

/-- The emit-or-abort loop every spider's `parse_page` runs: one item per
row, the first raised exception aborting the page. -/
def exceptMapM (f : α → Except String β) : List α → Except String (List β)
  | [] => .ok []
  | a :: rest =>
    match f a with
    | .error e => .error e
    | .ok b =>
      match exceptMapM f rest with
      | .error e => .error e
      | .ok tail => .ok (b :: tail)

/-- `PaymentsSpider.parse_page`: `crawled_from=response.url`. -/
def parsePagePayments (now : Nat) (url : String) (rows : List PayRow) :
    Except String (List PaymentItem) :=
  exceptMapM (parsePaymentRow now url) rows

/-- `COVID19ExpensesSpider.source` (a fixed class attribute). -/
def covidSource : String :=
  "http://www.transparencia.feiradesantana.ba.gov.br/index.php?view=despesascovid"

/-- `COVID19ExpensesSpider.url`: the controller endpoint every covid request
actually targets (so the URL responses come from). -/
def covidUrl : String :=
  "http://www.transparencia.feiradesantana.ba.gov.br/controller/despesaCovid.php"

/-- `COVID19ExpensesSpider.parse_page`: identical to the payments loop except
that `crawled_from=self.source`, a constant — the response URL is never
read, so this embedding takes no URL argument at all. -/
def parsePageCovid (now : Nat) (rows : List PayRow) :
    Except String (List PaymentItem) :=
  exceptMapM (parsePaymentRow now covidSource) rows

/-! ### COVID19ExpensesSpider.start_requests -/

/-- Python dict assignment `d[k] = v` on a form-data dict embedded as an
association list: replace in place when the key exists, append otherwise. -/
def setFormField (d : List (String × String)) (k v : String) :
    List (String × String) :=
  if d.any (fun p => p.1 = k) then
    d.map (fun p => if p.1 = k then (k, v) else p)
  else d ++ [(k, v)]

/-- `d.get(k)` on a form-data dict. -/
def lookupForm (d : List (String × String)) (k : String) : Option String :=
  (d.find? (fun p => p.1 = k)).map (fun p => p.2)

/-- `COVID19ExpensesSpider.data` (note: no `POST_FASE` key). -/
def covidData : List (String × String) :=
  [("POST_PARAMETRO", "PesquisaDespesasCovid"), ("POST_DATA", ""),
   ("POST_NMCREDOR", ""), ("POST_CPFCNPJ", ""), ("POST_BEM", "")]

/-- `COVID19ExpensesSpider.start_requests`: for each phase, copy the template
and set `POST_FASE` on the copy, but construct the `FormRequest` from the
unmodified `self.data`.  The result is the form data each yielded request
carries. -/
def covidStartRequests : List (List (String × String)) :=
  ["PAG", "EMP", "LIQ"].map (fun phase =>
    let _data := setFormField covidData "POST_FASE" phase
    covidData)

/-! ### ContractsSpider.parse_page -/

/-- The label strings `clean_details` filters out. -/
def contractLabels : List String :=
  ["Objeto:", "Contratada:", "Valor:", "Data Final de Contrato:", "VISUALIZAR"]

/-- `ContractsSpider.clean_details`: strip each detail text and keep those
that are neither empty nor one of the labels. -/
def clean_details (texts : List String) : List String :=
  (texts.map pyStrip).filter
    (fun d => (d != "") && !(contractLabels.contains d))

/-- First token following the marker token in a token list. -/
def tokenAfterMarker (marker : String) : List String → Option String
  | [] => none
  | t :: rest => if t = marker then rest.head? else tokenAfterMarker marker rest

/-- Modelled from the spec: `scraper.spiders.utils.identify_contract_id` is
not under src; per the spec it "extracts a canonical contract identifier from
a free-text headline using a documented pattern; failure to match is a
per-record error": for `"CONTRATO N° 11-2017-1926C REFERENTE A ..."` the
identifier is the token following `N°`.  `none` models a failed match. -/
def identify_contract_id (s : String) : Option String :=
  tokenAfterMarker "N°" ((pySplitOn s " ").filter (fun t => t != ""))

/-- `CityHallContractItem`. -/
structure ContractItem where
  contract_id : Option String
  starts_at : String
  summary : String
  contractor_document : String
  contractor_name : String
  value : String
  ends_at : String
  crawled_at : Nat
  crawled_from : String
  files : Option (List String)
deriving DecidableEq

/-- One `tr.informacao` fragment: its `p ::text` extracts and the optional
`a.btn` href. -/
structure ContractDetail where
  texts : List String
  docUrl : Option String
deriving DecidableEq

def contractsBaseUrl : String :=
  "http://www.transparencia.feiradesantana.ba.gov.br"

/-- The body of the contracts `for headline, raw_details in zip(...)` loop:
index the headline texts at 0 and 1, clean the details, index them at 0–3,
split the contractor detail on `" - "` and take exactly its first two
segments; `if document_url:` attaches a single absolute file URL.
`.error` models a raised `IndexError`. -/
def parseContractRow (now : Nat) (url : String)
    (headline : List String) (raw : ContractDetail) :
    Except String ContractItem :=
  match headline with
  | cd0 :: cd1 :: _ =>
    match clean_details raw.texts with
    | d0 :: d1 :: d2 :: d3 :: _ =>
      match pySplitOn d1 " - " with
      | c0 :: c1 :: _ =>
        .ok { contract_id := identify_contract_id cd0,
              starts_at := cd1,
              summary := d0,
              contractor_document := c0,
              contractor_name := c1,
              value := d2,
              ends_at := d3,
              crawled_at := now,
              crawled_from := url,
              files :=
                match raw.docUrl with
                | some u => if u = "" then none else some [contractsBaseUrl ++ u]
                | none => none }
      | _ => .error "IndexError"
    | _ => .error "IndexError"
  | _ => .error "IndexError"

/-- Recursion over the zipped headline/detail rows. -/
def contractRows (now : Nat) (url : String)
    (rows : List (List String × ContractDetail)) :
    Except String (List ContractItem) :=
  exceptMapM (fun r => parseContractRow now url r.1 r.2) rows

/-- `ContractsSpider.parse_page`: zip the headline selector results against
the `tr.informacao` selector results and run the extraction loop. -/
def parsePageContracts (now : Nat) (url : String)
    (headlines : List (List String)) (details : List ContractDetail) :
    Except String (List ContractItem) :=
  contractRows now url (headlines.zip details)

/-! ### BidsSpider.parse_page and its helpers -/

/-- Whether a string is entirely whitespace (Python `str.isspace()`; notably
false on the empty string). -/
def pyIsSpace (s : String) : Bool :=
  s ≠ "" && s.data.all (fun c => c.isWhitespace)

/-- Modelled from the spec: `scraper.spiders.utils.is_url` is not under src;
per the spec the extractor must "detect and reject non-absolute/invalid URLs".
Modelled as an absolute-http-URL check. -/
def is_url (s : String) : Bool :=
  "http://".data.isPrefixOf s.data || "https://".data.isPrefixOf s.data

/-- Modelled from the spec: `response.urljoin` is part of the out-of-scope
transport layer; `files` must hold "absolute URLs", so an absolute reference
is kept and a relative one is resolved against the page URL's directory. -/
def pyUrljoin (base u : String) : String :=
  if is_url u then u
  else String.mk ((base.data.reverse.dropWhile (fun c => c ≠ '/')).reverse) ++ u

/-- One row of a bid-history table: the `td[2]` date text, the `td[3]` event
text and the `td[4]` link, each `none` when the node is absent. -/
structure HistRow where
  dateTxt : Option String
  eventTxt : Option String
  url : Option String
deriving DecidableEq

/-- One entry of a bid's history list. -/
structure BidEvent where
  published_at : PyDate
  event : String
  url : String
deriving DecidableEq

/-- One iteration of `BidsSpider._parse_bids_history`'s inner loop:
`date = row.xpath(...).get().strip()` raises `AttributeError` when the date
node is absent; the row is kept only `if event and date`. -/
def parseBidHistoryRow (row : HistRow) : Except String (Option BidEvent) :=
  match row.dateTxt with
  | none => .error "AttributeError"
  | some dtxt =>
    match row.eventTxt, from_str_to_datetime (pyStrip dtxt) with
    | some ev, some pd =>
      if ev = "" then .ok none
      else .ok (some ⟨pd, pyCapitalize ev, row.url.getD ""⟩)
    | _, _ => .ok none

/-- The kept rows of one bid-history fragment. -/
def parseBidHistory : List HistRow → Except String (List BidEvent)
  | [] => .ok []
  | r :: rest =>
    match parseBidHistoryRow r with
    | .error e => .error e
    | .ok o =>
      match parseBidHistory rest with
      | .error e => .error e
      | .ok tail => .ok (match o with | some ev => ev :: tail | none => tail)

/-- `BidsSpider._parse_bids_history` over all fragments. -/
def parse_bids_history (frags : List (List HistRow)) :
    Except String (List (List BidEvent)) :=
  exceptMapM parseBidHistory frags

/-- `BidsSpider._parse_description`: strip each text, drop whitespace-only
ones, join. -/
def parse_description (texts : List String) : String :=
  String.join ((texts.map pyStrip).filter (fun d => !(pyIsSpace d)))

/-- One description fragment: its `@href` extracts and its `text()` extracts. -/
structure DescFragment where
  hrefs : List String
  texts : List String
deriving DecidableEq

/-- One iteration of `BidsSpider._parse_descriptions`: first href (invalid
URLs demoted to `None` with a warning), joined description, skipped when the
description is `"Objeto"`. -/
def parseDescFragment (f : DescFragment) : Option (String × Option String) :=
  let document_url :=
    match f.hrefs.head? with
    | some u => if is_url u then some u else none
    | none => none
  let description := parse_description f.texts
  if description = "Objeto" then none else some (description, document_url)

/-- `BidsSpider._parse_descriptions`. -/
def parseDescriptions (frags : List DescFragment) : List (String × Option String) :=
  frags.filterMap parseDescFragment

/-- A `codes`/`modality` pair from `BidsSpider._parse_modalities`. -/
structure ModEntry where
  codes : String
  modality : Option String
deriving DecidableEq

/-- `BidsSpider._parse_modalities`: strip, drop empties, replace CRLF with
`" / "`, classify. -/
def parseModalities (raws : List String) : List ModEntry :=
  raws.filterMap (fun raw =>
    let m := pyStrip raw
    if m = "" then none
    else
      let m2 := pyReplace m "\r\n" " / "
      some ⟨m2, get_modality (some m2)⟩)

/-- `BidsSpider._parse_date`: Python slice `date[1:]` on each text. -/
def parseDateTexts (raws : List String) : List String :=
  raws.map (fun d => d.drop 1)

/-- Split off a nonempty maximal run of characters satisfying `p`. -/
def takeWhile1 (p : Char → Bool) (l : List Char) :
    Option (List Char × List Char) :=
  let t := l.takeWhile p
  if t.isEmpty then none else some (t, l.drop t.length)

/-- `\w` of the bids URL pattern. -/
def isWordChar (c : Char) : Bool := c.isAlphanum || c = '_'

/-- Attempted match of the anchored pattern
`licitacoes_pm\.asp[?|&]cat=(\w+)&dt=(\d+-\d+)` at the head of `l` (the
character class literally contains `?`, `|` and `&`), returning the `cat`
group and the two digit runs of the `dt` group. -/
def bidsMatchAt (l : List Char) : Option (String × String × String) :=
  if "licitacoes_pm.asp".data.isPrefixOf l then
    match l.drop "licitacoes_pm.asp".data.length with
    | c :: rest =>
      if (c = '?' ∨ c = '|' ∨ c = '&') ∧ "cat=".data.isPrefixOf rest then
        match takeWhile1 isWordChar (rest.drop 4) with
        | some (cat, r3) =>
          if "&dt=".data.isPrefixOf r3 then
            match takeWhile1 Char.isDigit (r3.drop 4) with
            | some (mm, r5) =>
              match r5 with
              | '-' :: r6 =>
                match takeWhile1 Char.isDigit r6 with
                | some (yy, _) => some (String.mk cat, String.mk mm, String.mk yy)
                | none => none
              | _ => none
            | none => none
          else none
        | none => none
      else none
    | [] => none
  else none

/-- `re.search` of the bids URL pattern: first position where the anchored
match succeeds. -/
def bidsSearch : List Char → Option (String × String × String)
  | [] => none
  | c :: t =>
    match bidsMatchAt (c :: t) with
    | some r => some r
    | none => bidsSearch t

/-- `url_pattern.search(response.url)` with groups
`(cat, month digits, year digits)`; `none` models a failed match (so that
`match.group` raises `AttributeError`). -/
def bidsUrlMatch (url : String) : Option (String × String × String) :=
  bidsSearch url.data

/-- `CityHallBidItem`. -/
structure BidItem where
  crawled_at : Nat
  crawled_from : String
  public_agency : String
  month : Int
  year : Int
  description : String
  history : List BidEvent
  codes : String
  modality : Option String
  session_at : Option PyDate
  files : Option (List String)
deriving DecidableEq

/-- `zip` of four lists, as in `zip(modalities, descriptions, bids_history,
date)`. -/
def zip4 : List α → List β → List γ → List δ → List (α × β × γ × δ)
  | a :: as, b :: bs, c :: cs, d :: ds => (a, b, c, d) :: zip4 as bs cs ds
  | _, _, _, _ => []

/-- The body of the bids `for ... in bid_data` loop: re-match the URL pattern
(`AttributeError` when it fails), parse the month/year digits, and build the
item. -/
def parseBidEntry (now : Nat) (url : String)
    (e : ModEntry × (String × Option String) × List BidEvent × String) :
    Except String BidItem :=
  match bidsUrlMatch url with
  | none => .error "AttributeError"
  | some (cat, mm, yy) =>
    match pyInt mm, pyInt yy with
    | some mi, some yi =>
      match e with
      | (mc, (description, document_url), history, dateS) =>
        .ok { crawled_at := now, crawled_from := url,
              public_agency := pyUpper cat,
              month := mi, year := yi,
              description := description,
              history := history,
              codes := mc.codes, modality := mc.modality,
              session_at := from_str_to_datetime dateS,
              files :=
                match document_url with
                | some u => if u = "" then none else some [pyUrljoin url u]
                | none => none }
    | _, _ => .error "ValueError"

/-- Recursion over the zipped bid data. -/
def bidEntries (now : Nat) (url : String)
    (es : List (ModEntry × (String × Option String) × List BidEvent × String)) :
    Except String (List BidItem) :=
  exceptMapM (parseBidEntry now url) es

/-- `BidsSpider.parse_page`: parse the four fragment families, zip them, and
emit one item per zipped entry. -/
def parsePageBids (now : Nat) (url : String) (raw_modalities : List String)
    (raw_descriptions : List DescFragment)
    (raw_bids_history : List (List HistRow)) (raw_date : List String) :
    Except String (List BidItem) :=
  match parse_bids_history raw_bids_history with
  | .error e => .error e
  | .ok hist =>
    bidEntries now url
      (zip4 (parseModalities raw_modalities) (parseDescriptions raw_descriptions)
        hist (parseDateTexts raw_date))

/-! ## Theorems -/

/-! ### Claim C3: pagination walker -/

/-- Claim C3, as amended: the walker derives the last page from the
second-to-last pagination entry (the example control yields pages 1..7); an
absent widget (no entries) falls back to a single page, yielding no further
page requests; but entries whose second-to-last member does not parse as an
integer make the walker raise a `ValueError` instead of falling back. -/
theorem pagination_walker_spec :
    paginationWalker [] = .ok [] ∧
    paginationWalker ["« Anterior", "1", "2", "7", "Próximo »"]
      = .ok [1, 2, 3, 4, 5, 6, 7] ∧
    (∀ (pages : List String) (n : Int),
      2 ≤ pages.length → pyInt (pages.getD (pages.length - 2) "") = some n →
      paginationWalker pages = .ok (rangeFromOne n)) ∧
    (∀ pages : List String,
      2 ≤ pages.length → pyInt (pages.getD (pages.length - 2) "") = none →
      paginationWalker pages = .error "ValueError") := by
  have hne : ∀ pages : List String, 2 ≤ pages.length → pages.isEmpty = false := by
    intro pages h
    cases pages with
    | nil => simp at h
    | cons a t => simp
  refine ⟨rfl, by decide, ?_, ?_⟩
  · intro pages n hlen hint
    simp only [paginationWalker, hne pages hlen, Bool.false_eq_true, if_false,
      if_pos hlen, hint]
  · intro pages hlen hint
    simp only [paginationWalker, hne pages hlen, Bool.false_eq_true, if_false,
      if_pos hlen, hint]

/-- Claim C3 witness: the general branch of `pagination_walker_spec`
instantiated on a concrete three-entry control. -/
theorem pagination_walker_spec_witness :
    paginationWalker ["x", "3", "y"] = .ok (rangeFromOne 3) :=
  pagination_walker_spec.2.2.1 ["x", "3", "y"] 3 (by decide) (by decide)

/-- Claim C3 counterexample: a present pagination control whose
second-to-last entry is not an integer makes the walker raise, where the
claim demands a silent single-page fallback (`.ok []`). -/
theorem pagination_walker_counterexample :
    paginationWalker ["« Anterior", "Próximo »"] = .error "ValueError" := by
  decide

/-! ### Claim C4: date-window crawl controller -/

/-- The window loop is an arithmetic enumeration of the span. -/
theorem windowLoop_eq_range (n : Nat) :
    ∀ s t, t - s = n → windowLoop n s t = (List.range n).map (fun i => s + i) := by
  induction n with
  | zero => intro s t _; rfl
  | succ k ih =>
    intro s t h
    have hlt : s < t := by omega
    rw [windowLoop, if_pos hlt, ih (s + 1) t (by omega), List.range_succ_eq_map]
    simp only [List.map_cons, List.map_map, Nat.add_zero, List.cons.injEq,
      true_and]
    apply List.map_congr_left
    intro i _
    simp only [Function.comp_apply]
    omega

/-- The window-start list is an arithmetic enumeration of the span. -/
theorem dateWindowStarts_eq_range (s t : Nat) :
    dateWindowStarts s t = (List.range (t - s)).map (fun i => s + i) :=
  windowLoop_eq_range (t - s) s t rfl

/-- Claim C4: the crawl controller yields one half-open one-day window per
calendar day of `[start, today)` in ascending order; the sequence is empty
when `start ≥ today`; consecutive windows are contiguous; and every window
lies within `[start, today)`. -/
theorem crawl_windows_spec (s t : Nat) :
    (t ≤ s → crawlWindows s t = []) ∧
    crawlWindows s t = (List.range (t - s)).map (fun i => (s + i, s + i + 1)) ∧
    (∀ (i : Nat) (w w2 : Nat × Nat),
      (crawlWindows s t)[i]? = some w → (crawlWindows s t)[i + 1]? = some w2 →
      w.2 = w2.1) ∧
    (∀ w ∈ crawlWindows s t, s ≤ w.1 ∧ w.1 + 1 = w.2 ∧ w.2 ≤ t) := by
  have hchar : crawlWindows s t
      = (List.range (t - s)).map (fun i => (s + i, s + i + 1)) := by
    unfold crawlWindows
    rw [dateWindowStarts_eq_range s t]
    simp [List.map_map, Function.comp]
  refine ⟨?_, hchar, ?_, ?_⟩
  · intro hle
    rw [hchar]
    have : t - s = 0 := by omega
    simp [this]
  · intro i w w2 hw hw2
    rw [hchar] at hw hw2
    rw [List.getElem?_map] at hw hw2
    rcases hri : (List.range (t - s))[i]? with _ | v
    · rw [hri] at hw; simp at hw
    · rcases hri2 : (List.range (t - s))[i + 1]? with _ | v2
      · rw [hri2] at hw2; simp at hw2
      · rw [hri] at hw; rw [hri2] at hw2
        simp at hw hw2
        have hv : v = i := by
          rcases List.getElem?_eq_some.mp hri with ⟨hlt, he⟩
          simpa using he.symm
        have hv2 : v2 = i + 1 := by
          rcases List.getElem?_eq_some.mp hri2 with ⟨hlt, he⟩
          simpa using he.symm
        subst hv hv2
        rw [← hw, ← hw2]
        show s + v + 1 = s + (v + 1)
        omega
  · intro w hw
    rw [hchar] at hw
    rcases List.mem_map.mp hw with ⟨i, hi, hwi⟩
    have : i < t - s := by simpa [List.mem_range] using hi
    subst hwi
    refine ⟨by omega, by omega, by omega⟩

/-- Claim C4 witness: the parts of `crawl_windows_spec` at concrete spans. -/
theorem crawl_windows_spec_witness :
    crawlWindows 9 7 = [] ∧
    ((5, 6) : Nat × Nat).2 = ((6, 7) : Nat × Nat).1 ∧
    9 ≤ (9, 10).1 ∧ (9, 10).1 + 1 = (9, 10).2 ∧ (9, 10).2 ≤ 12 :=
  ⟨(crawl_windows_spec 9 7).1 (by decide),
   (crawl_windows_spec 5 8).2.2.1 0 (5, 6) (6, 7) (by decide) (by decide),
   (crawl_windows_spec 9 12).2.2.2 (9, 10) (by decide)⟩

/-! ### Claim C2: link-date gate -/

/-- A successful `date(y, m, d)` call returns exactly that date. -/
theorem mkPyDate_ok_eq {y m d : Int} {dt : PyDate}
    (h : mkPyDate y m d = .ok dt) : dt = ⟨y, m, d⟩ := by
  unfold mkPyDate at h
  split at h
  · exact (Except.ok.inj h).symm
  · exact Except.noConfusion h

/-- Claim C2, as amended: when the URL's `dt` token parses as a month/year
pair (`gateMonthYear`), the gate returns exactly the comparison of the full
configured start date against the first day of that month — so a start date
later than the first of its own month excludes that month, contrary to a pure
month/year comparison; when any parsing step fails, the gate raises instead
of returning a boolean. -/
theorem follow_this_date_spec (start : PyDate) (url : String) :
    (∀ mi yi : Int, gateMonthYear url = some (mi, yi) →
      follow_this_date start url = .ok (pyDateLe start ⟨yi, mi, 1⟩)) ∧
    (gateMonthYear url = none → (follow_this_date start url).isOk = false) := by
  rcases hep : extract_param url "dt" with _ | token
  · refine ⟨?_, ?_⟩
    · intro mi yi h
      simp [gateMonthYear, hep] at h
    · intro _
      simp [follow_this_date, hep, Except.isOk, Except.toBool]
  · rcases hsp : pySplitOn token "-" with _ | ⟨m, _ | ⟨y, rest⟩⟩
    · refine ⟨?_, ?_⟩
      · intro mi yi h
        simp [gateMonthYear, hep, hsp] at h
      · intro _
        simp [follow_this_date, hep, hsp, Except.isOk, Except.toBool]
    · refine ⟨?_, ?_⟩
      · intro mi yi h
        simp [gateMonthYear, hep, hsp] at h
      · intro _
        simp [follow_this_date, hep, hsp, Except.isOk, Except.toBool]
    · rcases hy : pyInt y with _ | yi0
      · refine ⟨?_, ?_⟩
        · intro mi yi h
          simp [gateMonthYear, hep, hsp, hy] at h
        · intro _
          simp [follow_this_date, hep, hsp, hy, Except.isOk, Except.toBool]
      · rcases hm : pyInt m with _ | mi0
        · refine ⟨?_, ?_⟩
          · intro mi yi h
            simp [gateMonthYear, hep, hsp, hy, hm] at h
          · intro _
            simp [follow_this_date, hep, hsp, hy, hm, Except.isOk, Except.toBool]
        · rcases hd : mkPyDate yi0 mi0 1 with e | d
          · refine ⟨?_, ?_⟩
            · intro mi yi h
              simp [gateMonthYear, hep, hsp, hy, hm, hd] at h
            · intro _
              simp [follow_this_date, hep, hsp, hy, hm, hd, Except.map,
                Except.isOk, Except.toBool, Except.toBool]
          · refine ⟨?_, ?_⟩
            · intro mi yi h
              simp [gateMonthYear, hep, hsp, hy, hm, hd] at h
              obtain ⟨hmi, hyi⟩ := h
              subst hmi hyi
              have hdd : d = ⟨yi0, mi0, 1⟩ := mkPyDate_ok_eq hd
              subst hdd
              simp [follow_this_date, hep, hsp, hy, hm, hd, Except.map]
            · intro h
              simp [gateMonthYear, hep, hsp, hy, hm, hd] at h

/-- The example bids index URL of the source's docstring. -/
def gateUrl : String :=
  "http://www.feiradesantana.ba.gov.br/seadm/licitacoes_pm.asp?cat=PMFS&dt=08-2020#links"

/-- Claim C2 witness: `follow_this_date_spec` at the docstring URL — with
start `2021-01-01` the gate compares against `2020-08-01` (which yields
`false`), and a malformed `dt` token raises. -/
theorem follow_this_date_spec_witness :
    follow_this_date ⟨2021, 1, 1⟩ gateUrl
      = .ok (pyDateLe ⟨2021, 1, 1⟩ ⟨2020, 8, 1⟩) ∧
    (follow_this_date ⟨2021, 1, 1⟩ "http://x.asp?cat=PMFS&dt=bogus").isOk
      = false :=
  ⟨(follow_this_date_spec ⟨2021, 1, 1⟩ gateUrl).1 8 2020 rfl,
   (follow_this_date_spec ⟨2021, 1, 1⟩ "http://x.asp?cat=PMFS&dt=bogus").2 rfl⟩

/-- Claim C2 counterexample: for the configured start `2020-08-15` the URL
month/year `08-2020` equals the start's month/year, so the claimed
month/year comparison demands `true`; the gate compares
`date(2020, 8, 1) >= date(2020, 8, 15)` and returns `false`. -/
theorem follow_this_date_counterexample :
    gateMonthYear gateUrl = some (8, 2020) ∧
    PyDate.month ⟨2020, 8, 15⟩ = 8 ∧
    PyDate.year ⟨2020, 8, 15⟩ = 2020 ∧
    follow_this_date ⟨2020, 8, 15⟩ gateUrl = .ok false :=
  ⟨rfl, rfl, rfl, rfl⟩

/-! ### Claims C5 and C6: the label/value loop -/

/-- List induction two elements at a time. -/
theorem twoStepInduction {α : Type} {motive : List α → Prop} (h0 : motive [])
    (h1 : ∀ a, motive [a])
    (h2 : ∀ a b l, motive l → motive (a :: b :: l)) : ∀ l, motive l
  | [] => h0
  | [a] => h1 a
  | a :: b :: l => h2 a b l (twoStepInduction h0 h1 h2 l)

/-- Claim C5, as amended: an odd-length label/value token sequence always
makes the extraction loop raise (the value pop finds the list empty, or a
`KeyError` precedes it) — the record and page are aborted, not continued
with a partial mapping. -/
theorem applyDetails_odd_raises (ds : List String) :
    ∀ ex : Extras, ds.length % 2 = 1 → (applyDetails ds ex).isOk = false := by
  induction ds using twoStepInduction with
  | h0 => intro ex h; simp at h
  | h1 a => intro ex h; rfl
  | h2 a b l ih =>
    intro ex h
    have hl : l.length % 2 = 1 := by
      simp only [List.length_cons] at h
      omega
    simp only [applyDetails]
    rcases hm : payMapping a with _ | f
    · rfl
    · exact ih (setExtra ex f b) hl

/-- Claim C5 witness: `applyDetails_odd_raises` on a concrete three-token
sequence. -/
theorem applyDetails_odd_raises_witness :
    (["Data:", "22/10/2019", "N°:"].length % 2 = 1) ∧
    (applyDetails ["Data:", "22/10/2019", "N°:"] emptyExtras).isOk = false :=
  ⟨by decide,
   applyDetails_odd_raises ["Data:", "22/10/2019", "N°:"] emptyExtras
     (by decide)⟩

/-- Claim C5 counterexample: a single known label with no value raises
`IndexError` where the claim demands a logged warning and best-effort
continuation. -/
theorem applyDetails_counterexample :
    applyDetails ["N°:"] emptyExtras = .error "IndexError" ∧
    (payMapping "N°:").isSome = true :=
  ⟨rfl, by decide⟩

/-- Updates of distinct fields commute. -/
theorem setExtra_comm {f g : String} (hfg : f ≠ g) (ex : Extras)
    (v w : String) :
    setExtra (setExtra ex f v) g w = setExtra (setExtra ex g w) f v := by
  funext q
  simp only [setExtra]
  by_cases h1 : q = f <;> by_cases h2 : q = g
  · exact absurd (h1.symm.trans h2) hfg
  · simp [h1, h2, hfg]
  · simp [h1, h2, Ne.symm hfg]
  · simp [h1, h2]

/-- A raised error is absorbing for the fold. -/
theorem foldl_detailStep_error (l : List (String × String)) (e : String) :
    List.foldl detailStep (.error e) l = .error e := by
  induction l with
  | nil => rfl
  | cons p rest ih => simpa [detailStep] using ih

/-- The label/value loop on a flattened pair list is a left fold of
`detailStep` over the pairs. -/
theorem applyDetails_flatten (ps : List (String × String)) :
    ∀ ex : Extras,
      applyDetails (flattenPairs ps) ex = List.foldl detailStep (.ok ex) ps := by
  induction ps with
  | nil => intro ex; rfl
  | cons p rest ih =>
    intro ex
    rcases p with ⟨k, v⟩
    simp only [flattenPairs, applyDetails, List.foldl_cons]
    rcases hm : payMapping k with _ | f
    · rw [show detailStep (Except.ok ex) (k, v) = .error "KeyError" from by
        simp [detailStep, hm]]
      exact (foldl_detailStep_error rest "KeyError").symm
    · rw [show detailStep (Except.ok ex) (k, v) = .ok (setExtra ex f v) from by
        simp [detailStep, hm]]
      exact ih (setExtra ex f v)

/-- Two assignment steps whose labels map to distinct fields commute. -/
theorem detailStep_comm (x y : String × String)
    (hxy : x = y ∨ payMapping x.1 ≠ payMapping y.1)
    (z : Except String Extras) :
    detailStep (detailStep z x) y = detailStep (detailStep z y) x := by
  rcases hxy with h | h
  · subst h; rfl
  · rcases z with e | ex
    · rfl
    · rcases hx : payMapping x.1 with _ | fx <;>
        rcases hy : payMapping y.1 with _ | fy
      · simp [detailStep, hx, hy]
      · simp [detailStep, hx, hy]
      · simp [detailStep, hx, hy]
      · have hne : fx ≠ fy := by
          rw [hx, hy] at h
          intro hc
          exact h (by rw [hc])
        simp [detailStep, hx, hy, setExtra_comm hne]

/-- Claim C6, as amended: for label/value pairs whose labels are all in the
lookup table and map to pairwise distinct fields, the extracted field-to-value
mapping is invariant under any permutation of the pairs.  (With duplicate
labels the later pair overwrites the earlier one, so permutation invariance
fails — see the counterexample.) -/
theorem applyDetails_perm (ps₁ ps₂ : List (String × String)) (ex : Extras)
    (hperm : ps₁.Perm ps₂)
    (_hsome : ∀ p ∈ ps₁, (payMapping p.1).isSome = true)
    (hdist : ps₁.Pairwise (fun p q => payMapping p.1 ≠ payMapping q.1)) :
    applyDetails (flattenPairs ps₁) ex = applyDetails (flattenPairs ps₂) ex := by
  rw [applyDetails_flatten, applyDetails_flatten]
  apply hperm.foldl_eq'
  intro x hx y hy z
  apply detailStep_comm
  by_cases hxy : x = y
  · exact Or.inl hxy
  · right
    have hsymm : Symmetric
        (fun p q : String × String => payMapping p.1 ≠ payMapping q.1) :=
      fun p q hpq hc => hpq hc.symm
    exact hdist.forall hsymm hx hy hxy

/-- Claim C6 witness: `applyDetails_perm` on the spec's example pairs and
their swap. -/
theorem applyDetails_perm_witness :
    applyDetails
        (flattenPairs [("Data:", "22/10/2019"), ("N°:", "19000215/0004")])
        emptyExtras
      = applyDetails
          (flattenPairs [("N°:", "19000215/0004"), ("Data:", "22/10/2019")])
          emptyExtras :=
  applyDetails_perm _ _ emptyExtras (by decide) (by decide) (by decide)

/-- Duplicate-label pair lists for the permutation counterexample. -/
def dupPairsA : List (String × String) := [("Data:", "x"), ("Data:", "y")]

def dupPairsB : List (String × String) := [("Data:", "y"), ("Data:", "x")]

/-- Claim C6 counterexample: with a duplicated label (all labels in the
table), two permutations of the same pairs yield different values for the
`date` field, refuting permutation invariance as claimed. -/
theorem applyDetails_perm_counterexample :
    dupPairsA.Perm dupPairsB ∧
    (payMapping "Data:").isSome = true ∧
    (applyDetails (flattenPairs dupPairsA) emptyExtras).map
        (fun ex => ex "date")
      ≠ (applyDetails (flattenPairs dupPairsB) emptyExtras).map
          (fun ex => ex "date") := by
  refine ⟨by decide, by decide, ?_⟩
  intro h
  have h1 : (applyDetails (flattenPairs dupPairsA) emptyExtras).map
      (fun ex => ex "date") = Except.ok (some "y") := rfl
  have h2 : (applyDetails (flattenPairs dupPairsB) emptyExtras).map
      (fun ex => ex "date") = Except.ok (some "x") := rfl
  rw [h1, h2] at h
  exact absurd (Except.ok.inj h) (by decide)

/-! ### Claim C7: modality classifier -/

/-- Claim C7, as amended: classification is a case-insensitive,
accent-stripped substring match against the fixed ordered keyword table with
first-match-wins semantics — "Tomada de Preço" classifies as
`tomada_de_precos`; a text containing the contiguous keyword
"pregao eletronico" (after normalization) and neither of the earlier keywords
classifies as `pregao_eletronico`; a text containing no keyword classifies
as unknown (`none`).  Merely containing "pregão" and "eletrônico" separately
is not sufficient. -/
theorem get_modality_spec :
    get_modality (some "Tomada de Preço") = some "tomada_de_precos" ∧
    (∀ t : String,
      pyIn "tomada" (pyLower (strip_accents (pyLower t))) = false →
      pyIn "pregao presencial" (pyLower (strip_accents (pyLower t))) = false →
      pyIn "pregao eletronico" (pyLower (strip_accents (pyLower t))) = true →
      get_modality (some t) = some "pregao_eletronico") ∧
    (∀ t : String,
      (∀ k ∈ ["tomada", "pregao presencial", "pregao eletronico", "leilao",
          "inexigibilidade", "dispensa", "convite", "concurso", "concorrencia",
          "chamada", "chamamento"],
        pyIn k (pyLower (strip_accents (pyLower t))) = false) →
      get_modality (some t) = none) := by
  refine ⟨by decide, ?_, ?_⟩
  · intro t h1 h2 h3
    simp [get_modality, h1, h2, h3]
  · intro t hall
    simp [get_modality,
      hall "tomada" (by simp), hall "pregao presencial" (by simp),
      hall "pregao eletronico" (by simp), hall "leilao" (by simp),
      hall "inexigibilidade" (by simp), hall "dispensa" (by simp),
      hall "convite" (by simp), hall "concurso" (by simp),
      hall "concorrencia" (by simp), hall "chamada" (by simp),
      hall "chamamento" (by simp)]

/-- Claim C7 witness: `get_modality_spec` applied to a contiguous
"Pregão Eletrônico" text and to an unrecognized text. -/
theorem get_modality_spec_witness :
    get_modality (some "Pregão Eletrônico nº 5") = some "pregao_eletronico" ∧
    get_modality (some "xyz") = none :=
  ⟨get_modality_spec.2.1 "Pregão Eletrônico nº 5" (by decide) (by decide)
    (by decide),
   get_modality_spec.2.2 "xyz" (by decide)⟩

/-- The contiguity/order counterexample text: it contains both "pregão" and
"eletrônico" but also "tomada", which is checked first. -/
def modalityCexText : String := "tomada pregão eletrônico"

/-- Claim C7 counterexample: a text containing both "pregão" and
"eletrônico" classifies as `tomada_de_precos`, not `pregao_eletronico`,
because the earlier "tomada" keyword wins. -/
theorem get_modality_counterexample :
    pyIn "pregão" modalityCexText = true ∧
    pyIn "eletrônico" modalityCexText = true ∧
    get_modality (some modalityCexText) = some "tomada_de_precos" ∧
    get_modality (some modalityCexText) ≠ some "pregao_eletronico" := by
  refine ⟨by decide, by decide, by decide, by decide⟩

/-! ### Claim C9: covid start requests ignore the phase -/

/-- Claim C9: `COVID19ExpensesSpider.start_requests` writes the phase into a
local copy but yields requests built from the unmodified class template, so
all three requests are identical and carry no `POST_FASE` filter — even
though the modified copy it discards would have carried one. -/
theorem covid_start_requests_no_phase :
    covidStartRequests = [covidData, covidData, covidData] ∧
    lookupForm covidData "POST_FASE" = none ∧
    setFormField covidData "POST_FASE" "PAG" ≠ covidData := by
  refine ⟨by decide, by decide, by decide⟩

/-! ### Generic lemmas about the emit-or-abort loop -/

/-- If two row parsers agree modulo `g`, the page loops agree modulo `g`. -/
theorem exceptMapM_map_congr {α β γ : Type} (f1 f2 : α → Except String β)
    (g : β → γ) (h : ∀ a, (f1 a).map g = (f2 a).map g) :
    ∀ l, (exceptMapM f1 l).map (List.map g)
      = (exceptMapM f2 l).map (List.map g) := by
  intro l
  induction l with
  | nil => rfl
  | cons a rest ih =>
    simp only [exceptMapM]
    rcases e1 : f1 a with er | b1 <;> rcases e2 : f2 a with er2 | b2
    · have hx := h a
      rw [e1, e2] at hx
      simp [Except.map] at hx
      subst hx
      rfl
    · have hx := h a
      rw [e1, e2] at hx
      simp [Except.map] at hx
    · have hx := h a
      rw [e1, e2] at hx
      simp [Except.map] at hx
    · have hx := h a
      rw [e1, e2] at hx
      simp only [Except.map] at hx
      rcases r1 : exceptMapM f1 rest with e | t1 <;>
        rcases r2 : exceptMapM f2 rest with e2 | t2
      · rw [r1, r2] at ih
        simp [Except.map] at ih
        subst ih
        rfl
      · rw [r1, r2] at ih
        simp [Except.map] at ih
      · rw [r1, r2] at ih
        simp [Except.map] at ih
      · rw [r1, r2] at ih
        simp only [Except.map] at ih
        simp [Except.map]
        exact ⟨Except.ok.inj hx, Except.ok.inj ih⟩

/-- A property of each successfully parsed row holds of every emitted item. -/
theorem exceptMapM_mem {α β : Type} (f : α → Except String β) {P : β → Prop}
    (h : ∀ a b, f a = .ok b → P b) :
    ∀ l bs, exceptMapM f l = .ok bs → ∀ b ∈ bs, P b := by
  intro l
  induction l with
  | nil =>
    intro bs hbs b hb
    cases hbs
    simp at hb
  | cons a rest ih =>
    intro bs hbs b hb
    simp only [exceptMapM] at hbs
    rcases e : f a with er | b0
    · rw [e] at hbs
      exact Except.noConfusion hbs
    · rw [e] at hbs
      rcases er : exceptMapM f rest with e2 | tail
      · rw [er] at hbs
        exact Except.noConfusion hbs
      · rw [er] at hbs
        have hcons : b0 :: tail = bs := Except.ok.inj hbs
        subst hcons
        rcases List.mem_cons.mp hb with hb0 | hbt
        · subst hb0
          exact h a b e
        · exact ih tail er b hbt

/-! ### Claim C10: contractor split -/

/-- Claim C10: a successfully parsed contract row carries exactly the first
`" - "`-segment of the contractor detail as `contractor_document` and exactly
the second segment as `contractor_name`; any further segments appear in
neither field. -/
theorem contract_contractor_split (now : Nat) (url : String)
    (headline : List String) (raw : ContractDetail)
    (h : (parseContractRow now url headline raw).isOk = true) :
    (parseContractRow now url headline raw).map
        (fun it => (it.contractor_document, it.contractor_name))
      = .ok
          ((pySplitOn ((clean_details raw.texts).getD 1 "") " - ").getD 0 "",
           (pySplitOn ((clean_details raw.texts).getD 1 "") " - ").getD 1 "") := by
  revert h
  unfold parseContractRow
  rcases headline with _ | ⟨cd0, _ | ⟨cd1, hrest⟩⟩ <;> try (dsimp only [])
  · intro h; simp [Except.isOk, Except.toBool] at h
  · intro h; simp [Except.isOk, Except.toBool] at h
  · rcases hcd : clean_details raw.texts with
      _ | ⟨d0, _ | ⟨d1, _ | ⟨d2, _ | ⟨d3, drest⟩⟩⟩⟩ <;> try (dsimp only [])
    · intro h; simp [Except.isOk, Except.toBool] at h
    · intro h; simp [Except.isOk, Except.toBool] at h
    · intro h; simp [Except.isOk, Except.toBool] at h
    · intro h; simp [Except.isOk, Except.toBool] at h
    · rcases hsp : pySplitOn d1 " - " with _ | ⟨c0, _ | ⟨c1, crest⟩⟩ <;>
        try (dsimp only [])
      · intro h; simp [Except.isOk, Except.toBool] at h
      · intro h; simp [Except.isOk, Except.toBool] at h
      · intro _
        simp [Except.map, List.getD, hsp]

/-- The contract headline and detail block of the source's docstring
example. -/
def exContractHeadline : List String :=
  ["CONTRATO N° 11-2017-1926C   REFERENTE A X", "01/06/2018"]

def exContractDetail : ContractDetail :=
  ⟨["Objeto:", " OBJ ", "Contratada:",
    "74.096.231/0001-80 - WAMBERTO LOPES DE ARAUJO - ME", "Valor:",
    "R$ 62.960,00", "Data Final de Contrato:", "01/06/2018"], none⟩

/-- Claim C10 witness: on the docstring example the emitted record carries
document `74.096.231/0001-80` and name `WAMBERTO LOPES DE ARAUJO`, while the
contractor string has three segments — the trailing `ME` is dropped. -/
theorem contract_contractor_split_witness :
    (parseContractRow 0 "u" exContractHeadline exContractDetail).map
        (fun it => (it.contractor_document, it.contractor_name))
      = .ok ("74.096.231/0001-80", "WAMBERTO LOPES DE ARAUJO") ∧
    (pySplitOn ((clean_details exContractDetail.texts).getD 1 "") " - ").length
      = 3 :=
  ⟨(contract_contractor_split 0 "u" exContractHeadline exContractDetail
      (by decide)).trans (by decide),
   by decide⟩

/-! ### Claim C8: determinism up to the clock -/

/-- Forgetting the wall-clock field of a contract item. -/
def ContractItem.eraseTime (it : ContractItem) : ContractItem :=
  { it with crawled_at := 0 }

/-- Forgetting the wall-clock field of a bid item. -/
def BidItem.eraseTime (it : BidItem) : BidItem :=
  { it with crawled_at := 0 }

/-- One contract row depends on the clock only through `crawled_at`. -/
theorem parseContractRow_time (n1 n2 : Nat) (url : String)
    (hl : List String) (raw : ContractDetail) :
    (parseContractRow n1 url hl raw).map ContractItem.eraseTime
      = (parseContractRow n2 url hl raw).map ContractItem.eraseTime := by
  unfold parseContractRow
  rcases hl with _ | ⟨cd0, _ | ⟨cd1, hrest⟩⟩ <;> try (dsimp only []) <;> try rfl
  rcases clean_details raw.texts with
    _ | ⟨d0, _ | ⟨d1, _ | ⟨d2, _ | ⟨d3, drest⟩⟩⟩⟩ <;> try (dsimp only []) <;>
    try rfl
  rcases pySplitOn d1 " - " with _ | ⟨c0, _ | ⟨c1, crest⟩⟩ <;>
    try (dsimp only []) <;> try rfl

/-- One bid entry depends on the clock only through `crawled_at`. -/
theorem parseBidEntry_time (n1 n2 : Nat) (url : String)
    (e : ModEntry × (String × Option String) × List BidEvent × String) :
    (parseBidEntry n1 url e).map BidItem.eraseTime
      = (parseBidEntry n2 url e).map BidItem.eraseTime := by
  unfold parseBidEntry
  rcases bidsUrlMatch url with _ | ⟨cat, mm, yy⟩ <;> try (dsimp only []) <;>
    try rfl
  rcases pyInt mm with _ | mi <;> rcases pyInt yy with _ | yi <;>
    try (dsimp only []) <;> try rfl

/-- Claim C8, as amended: for a fixed set of raw fragments the
extraction-and-normalization pipeline is a pure function of the fragments and
the clock reading, and two runs at different clock readings agree on every
field except `crawled_at` (shown for the contracts and bids pipelines).  Two
runs agree completely only when the clock readings coincide — `crawled_at`
is the wall clock, so re-running later changes it (see the
counterexample). -/
theorem pipeline_time_determinism (n1 n2 : Nat) (url : String)
    (hs : List (List String)) (ds : List ContractDetail)
    (rawm : List String) (rawd : List DescFragment)
    (rawh : List (List HistRow)) (rawdt : List String) :
    (parsePageContracts n1 url hs ds).map (List.map ContractItem.eraseTime)
      = (parsePageContracts n2 url hs ds).map
          (List.map ContractItem.eraseTime) ∧
    (parsePageBids n1 url rawm rawd rawh rawdt).map
        (List.map BidItem.eraseTime)
      = (parsePageBids n2 url rawm rawd rawh rawdt).map
          (List.map BidItem.eraseTime) := by
  constructor
  · unfold parsePageContracts contractRows
    exact exceptMapM_map_congr _ _ _
      (fun r : List String × ContractDetail =>
        parseContractRow_time n1 n2 url r.1 r.2) _
  · unfold parsePageBids
    rcases parse_bids_history rawh with e | hist
    · rfl
    · unfold bidEntries
      exact exceptMapM_map_congr _ _ _
        (fun e => parseBidEntry_time n1 n2 url e) _

/-- A one-row contracts page for the determinism counterexample. -/
def exC8Headlines : List (List String) := [["CONTRATO N° 1 X", "01/01/2020"]]

def exC8Details : List ContractDetail :=
  [⟨["REFERENTE", "74.096.231/0001-80 - ACME", "R$ 1,00", "01/06/2020"],
    none⟩]

/-- Claim C8 counterexample: the same fragments processed at two different
clock readings yield different records (their `crawled_at` fields differ), so
two runs of the pipeline do not produce identical records in all fields. -/
theorem pipeline_time_counterexample :
    parsePageContracts 0 "u" exC8Headlines exC8Details
      ≠ parsePageContracts 1 "u" exC8Headlines exC8Details := by
  decide

/-! ### Claim C1: provenance fields -/

/-- A successfully parsed payment row carries the given provenance. -/
theorem parsePaymentRow_provenance (now : Nat) (cf : String) (r : PayRow)
    (it : PaymentItem) :
    parsePaymentRow now cf r = .ok it →
    it.crawled_from = cf ∧ it.crawled_at = now := by
  unfold parsePaymentRow
  rcases r.headline.map pyStrip with _ | ⟨h0, _ | ⟨h1, _ | ⟨h2, _ | ⟨h3, hr⟩⟩⟩⟩ <;>
    try (dsimp only []) <;> try (intro h; exact Except.noConfusion h)
  rcases applyDetails (r.details.map pyStrip) emptyExtras with e | ex <;>
    try (dsimp only [])
  · intro h
    exact Except.noConfusion h
  · intro h
    rw [← Except.ok.inj h]
    exact ⟨rfl, rfl⟩

/-- A successfully parsed contract row carries the given provenance. -/
theorem parseContractRow_provenance (now : Nat) (url : String)
    (hl : List String) (raw : ContractDetail) (it : ContractItem) :
    parseContractRow now url hl raw = .ok it →
    it.crawled_from = url ∧ it.crawled_at = now := by
  unfold parseContractRow
  rcases hl with _ | ⟨cd0, _ | ⟨cd1, hrest⟩⟩ <;> try (dsimp only []) <;>
    try (intro h; exact Except.noConfusion h)
  rcases clean_details raw.texts with
    _ | ⟨d0, _ | ⟨d1, _ | ⟨d2, _ | ⟨d3, drest⟩⟩⟩⟩ <;> try (dsimp only []) <;>
    try (intro h; exact Except.noConfusion h)
  rcases pySplitOn d1 " - " with _ | ⟨c0, _ | ⟨c1, crest⟩⟩ <;>
    try (dsimp only []) <;> try (intro h; exact Except.noConfusion h)
  intro h
  rw [← Except.ok.inj h]
  exact ⟨rfl, rfl⟩

/-- A successfully parsed bid entry carries the given provenance. -/
theorem parseBidEntry_provenance (now : Nat) (url : String)
    (e : ModEntry × (String × Option String) × List BidEvent × String)
    (it : BidItem) :
    parseBidEntry now url e = .ok it →
    it.crawled_from = url ∧ it.crawled_at = now := by
  unfold parseBidEntry
  rcases bidsUrlMatch url with _ | ⟨cat, mm, yy⟩ <;> try (dsimp only []) <;>
    try (intro h; exact Except.noConfusion h)
  rcases pyInt mm with _ | mi <;> rcases pyInt yy with _ | yi <;>
    try (dsimp only []) <;> try (intro h; exact Except.noConfusion h)
  rcases e with ⟨mc, ⟨description, document_url⟩, history, dateS⟩
  intro h
  dsimp only [] at h
  rw [← Except.ok.inj h]
  exact ⟨rfl, rfl⟩

/-- Claim C1, as amended: every record emitted by the bids, contracts and
payments spiders carries `crawled_from` = the response URL and `crawled_at` =
the processing clock reading; but every record emitted by the covid-expenses
spider carries the fixed class constant `source` as `crawled_from`,
regardless of the URL that produced the response. -/
theorem provenance_spec (now : Nat) (url : String) (payRows : List PayRow)
    (hs : List (List String)) (ds : List ContractDetail)
    (rawm : List String) (rawd : List DescFragment)
    (rawh : List (List HistRow)) (rawdt : List String)
    (covRows : List PayRow) :
    (∀ items, parsePagePayments now url payRows = .ok items →
      ∀ it ∈ items, it.crawled_from = url ∧ it.crawled_at = now) ∧
    (∀ items, parsePageContracts now url hs ds = .ok items →
      ∀ it ∈ items, it.crawled_from = url ∧ it.crawled_at = now) ∧
    (∀ items, parsePageBids now url rawm rawd rawh rawdt = .ok items →
      ∀ it ∈ items, it.crawled_from = url ∧ it.crawled_at = now) ∧
    (∀ items, parsePageCovid now covRows = .ok items →
      ∀ it ∈ items, it.crawled_from = covidSource ∧ it.crawled_at = now) := by
  refine ⟨?_, ?_, ?_, ?_⟩
  · intro items h it hit
    exact exceptMapM_mem _
      (fun r b hb => parsePaymentRow_provenance now url r b hb)
      payRows items h it hit
  · intro items h it hit
    exact exceptMapM_mem _
      (fun r b hb => parseContractRow_provenance now url r.1 r.2 b hb)
      (hs.zip ds) items h it hit
  · intro items h it hit
    revert h
    unfold parsePageBids
    rcases parse_bids_history rawh with e | hist <;> try (dsimp only [])
    · intro h
      exact Except.noConfusion h
    · intro h
      exact exceptMapM_mem _
        (fun en b hb => parseBidEntry_provenance now url en b hb)
        _ items h it hit
  · intro items h it hit
    exact exceptMapM_mem _
      (fun r b hb => parsePaymentRow_provenance now covidSource r b hb)
      covRows items h it hit

/-- A concrete payment row and the items it parses to. -/
def exPayRow : PayRow := ⟨["a", "b", "c", "d"], []⟩

def exPayItem : PaymentItem := ⟨"a", "b", "c", "d", 3, "u", emptyExtras⟩

def exCovItem : PaymentItem := ⟨"a", "b", "c", "d", 3, covidSource, emptyExtras⟩

/-- Claim C1 witness: `provenance_spec` applied to one-row payments and covid
pages. -/
theorem provenance_spec_witness :
    exPayItem.crawled_from = "u" ∧ exPayItem.crawled_at = 3 ∧
    exCovItem.crawled_from = covidSource ∧ exCovItem.crawled_at = 3 := by
  obtain ⟨h1, h2⟩ :=
    (provenance_spec 3 "u" [exPayRow] [] [] [] [] [] [] [exPayRow]).1
      [exPayItem] rfl exPayItem (by simp)
  obtain ⟨h3, h4⟩ :=
    (provenance_spec 3 "u" [exPayRow] [] [] [] [] [] [] [exPayRow]).2.2.2
      [exCovItem] rfl exCovItem (by simp)
  exact ⟨h1, h2, h3, h4⟩

/-- Claim C1 counterexample: the covid spider's records carry the fixed
`source` constant as `crawled_from` — not the URL of the page they came from
(covid responses come from the `despesaCovid.php` controller endpoint, which
differs from `source`). -/
theorem provenance_counterexample :
    (parsePageCovid 0 [exPayRow]).map (List.map PaymentItem.crawled_from)
      = .ok [covidSource] ∧
    covidSource ≠ covidUrl :=
  ⟨rfl, by decide⟩

end CityHall
